import Mathlib

set_option maxRecDepth 100000

/-!
Verification of the speech-segmentation state machine and trim-and-persist
policy of the `audio-recorder` program (`main.py`, `config.py`).

The capture loop in `AudioRecorder.record` is embedded as a pure step
function on an explicit state record whose fields mirror the mutable
attributes of the Python object.  Frames are abstracted to `Nat`
identifiers for the segmentation claims, and to flat `List Int` sample
blocks for the persistence claims; per-frame classifier verdicts are the
booleans the loop obtains (a classifier failure is already folded into a
`false` verdict by the source's `try`/`except`).  The persistence layer
(`save_recording`, `_write_audio_file`, `_save_to_wave_file`,
`_save_to_flac_file`) is embedded over an association-list file store with
explicit failure injection for the two write attempts.
-/

namespace AudioRec

/-- Configuration-derived frame counts, mirroring `config.py` together with
the derived values computed in `AudioRecorder.__init__`:
`MINIMUM_CONSECUTIVE_SPEECH_FRAMES`, `silence_threshold =
int(SILENCE_DURATION_BEFORE_SAVE * 1000 / FRAME_DURATION)` and
`trailing_silence_frames = int(TRAILING_SILENCE_TO_KEEP * 1000 /
FRAME_DURATION)`. -/
structure Config where
  minimum_consecutive_speech_frames : Nat
  silence_threshold : Nat
  trailing_silence_frames : Nat
deriving DecidableEq

/-- The values from `config.py`: 7 minimum consecutive speech frames;
silence threshold `int(3 * 1000 / 30) = 100` frames; trailing silence to
keep `int(0.1 * 1000 / 30) = int(100 / 30) = 3` frames. -/
def defaultConfig : Config :=
  { minimum_consecutive_speech_frames := 7
    silence_threshold := 3 * 1000 / 30
    trailing_silence_frames := 100 / 30 }

/-- A small configuration (silence threshold of a single frame) used to
exercise the segment-close transition on short traces. -/
def shortConfig : Config :=
  { minimum_consecutive_speech_frames := 7
    silence_threshold := 1
    trailing_silence_frames := 3 }

/-- The mutable state of `AudioRecorder` as used by `record`, plus `saved`,
the instrumented list of buffers handed to `save_recording` (each recorded
at the moment of the call, before any trimming). -/
structure RecState where
  recording : Bool
  buffer : List Nat
  silence_counter : Nat
  speech_frame_counter : Nat
  speech_pre_buffer : List Nat
  speech_detected_in_recording : Bool
  saved : List (List Nat)
deriving DecidableEq

/-- State at entry of the read loop: `__init__` sets `recording = False`,
`buffer = []`, `silence_counter = 0`, `speech_detected_in_recording =
False`; `record` sets `speech_frame_counter = 0` and
`speech_pre_buffer = []`. -/
def initState : RecState :=
  { recording := false
    buffer := []
    silence_counter := 0
    speech_frame_counter := 0
    speech_pre_buffer := []
    speech_detected_in_recording := false
    saved := [] }

/-- The `if is_speech:` branch of the loop body (`main.py` lines 108-124):
set `speech_detected_in_recording`, zero the silence counter, bump the
consecutive-speech counter, always append the frame to the pre-buffer; if
not yet recording and the counter has reached the configured minimum,
start recording seeded with the pre-buffer (which already holds this
frame) and clear the pre-buffer; finally, if recording, append the frame
to the buffer. -/
def stepSpeech (cfg : Config) (s : RecState) (frame : Nat) : RecState :=
  let s1 : RecState :=
    { s with
      speech_detected_in_recording := true
      silence_counter := 0
      speech_frame_counter := s.speech_frame_counter + 1
      speech_pre_buffer := s.speech_pre_buffer ++ [frame] }
  let s2 : RecState :=
    if s1.recording = false ∧
        cfg.minimum_consecutive_speech_frames ≤ s1.speech_frame_counter then
      { s1 with
        recording := true
        buffer := s1.speech_pre_buffer
        speech_pre_buffer := [] }
    else s1
  if s2.recording = true then { s2 with buffer := s2.buffer ++ [frame] } else s2

/-- The `else:` (no speech) branch of the loop body (`main.py` lines
126-142): zero the consecutive-speech counter; when not recording, discard
the pre-buffer; when recording, bump the silence counter and append the
frame, and if the counter has reached the silence threshold, hand the
buffer to `save_recording` when `speech_detected_in_recording` holds, then
clear `recording`, `buffer`, `silence_counter` and
`speech_detected_in_recording`. -/
def stepSilence (cfg : Config) (s : RecState) (frame : Nat) : RecState :=
  let s1 : RecState := { s with speech_frame_counter := 0 }
  let s2 : RecState :=
    if s1.recording = false then { s1 with speech_pre_buffer := [] } else s1
  if s2.recording = true then
    let s3 : RecState :=
      { s2 with
        silence_counter := s2.silence_counter + 1
        buffer := s2.buffer ++ [frame] }
    if cfg.silence_threshold ≤ s3.silence_counter then
      let s4 : RecState :=
        if s3.speech_detected_in_recording = true then
          { s3 with saved := s3.saved ++ [s3.buffer] }
        else s3
      { s4 with
        recording := false
        buffer := []
        silence_counter := 0
        speech_detected_in_recording := false }
    else s3
  else s2

/-- One iteration of the `while True` loop for a frame with the verdict
the classifier produced for it. -/
def step (cfg : Config) (s : RecState) (frame : Nat) (is_speech : Bool) :
    RecState :=
  if is_speech then stepSpeech cfg s frame else stepSilence cfg s frame

/-- Run the loop over a finite list of `(frame, verdict)` events from the
initial state. -/
def run (cfg : Config) (events : List (Nat × Bool)) : RecState :=
  events.foldl (fun s e => step cfg s e.1 e.2) initState

/-- `n` frames with speech verdicts, with identifiers `start, start+1, …`. -/
def speechFrames (start n : Nat) : List (Nat × Bool) :=
  (List.range n).map (fun i => (start + i, true))

/-- `n` frames with non-speech verdicts, with identifiers `start, …`. -/
def silenceFrames (start n : Nat) : List (Nat × Bool) :=
  (List.range n).map (fun i => (start + i, false))

/-- The spec's scenario: 7 consecutive speech verdicts, then 100
consecutive silence verdicts. -/
def scenario1 : List (Nat × Bool) := speechFrames 1 7 ++ silenceFrames 8 100

/-- 8 consecutive speech verdicts, then 100 consecutive silence verdicts:
the eighth speech frame arrives while already recording. -/
def scenario2 : List (Nat × Bool) := speechFrames 1 8 ++ silenceFrames 9 100

/-- 8 speech verdicts, a 100-frame closing silence run, then immediately 7
speech verdicts with no intervening non-speech frame processed outside
recording. -/
def scenario3 : List (Nat × Bool) :=
  speechFrames 1 8 ++ silenceFrames 9 100 ++ speechFrames 109 7

/-- Fold step computing, over a verdict list, the pair (length of the
current trailing run of `true` verdicts, maximum length of any run of
`true` verdicts seen so far). -/
def runStep (s : Nat × Nat) (b : Bool) : Nat × Nat :=
  if b then (s.1 + 1, max s.2 (s.1 + 1)) else (0, s.2)

/-- Both run statistics for a verdict list. -/
def runStat (vs : List Bool) : Nat × Nat := vs.foldl runStep (0, 0)

/-- Length of the trailing run of `true` verdicts. -/
def curRun (vs : List Bool) : Nat := (runStat vs).1

/-- Maximum length over all runs of consecutive `true` verdicts. -/
def maxRun (vs : List Bool) : Nat := (runStat vs).2

/-- The trailing-silence trim of `save_recording` (`main.py` lines
161-164): when `silence_counter > trailing_silence_frames`, drop
`silence_counter - trailing_silence_frames` frames from the tail of the
buffer (`self.buffer[:-trim_frames]`). -/
def trimBuffer {α : Type} (buffer : List α)
    (silence_counter trailing_silence_frames : Nat) : List α :=
  if trailing_silence_frames < silence_counter then
    buffer.take (buffer.length - (silence_counter - trailing_silence_frames))
  else buffer

/-- Number of leading `false` entries of a verdict-tagged frame list. -/
def leadingFalse : List Bool → Nat
  | [] => 0
  | b :: l => if b then 0 else leadingFalse l + 1

/-- Number of trailing silence frames of a segment, each frame represented
by its speech verdict. -/
def trailingSilence (l : List Bool) : Nat := leadingFalse l.reverse

/-- A directory's contents as an association list from file name to the
flat PCM sample sequence stored there. -/
def FileStore : Type := List (String × List Int)

/-- Replace or create the file at `path`. -/
def fsSet (files : FileStore) (path : String) (data : List Int) : FileStore :=
  (path, data) :: List.filter (fun e => e.1 != path) files

/-- Whether a file exists at `path`. -/
def fileExists (files : FileStore) (path : String) : Bool :=
  (List.lookup path files).isSome

/-- `_save_to_wave_file` (`main.py` lines 198-206): `wave.open(filepath,
'wb')` creates the file, truncating and replacing any existing file at
that path, so the write succeeds and overwrites. -/
def saveToWaveFile (files : FileStore) (filepath : String)
    (audio_data : List Int) : Except String FileStore :=
  Except.ok (fsSet files filepath audio_data)

/-- `_save_to_flac_file` (`main.py` lines 208-216): `sf.SoundFile(filepath,
mode='x', ...)` raises when a file already exists at the path, and
otherwise creates it. -/
def saveToFlacFile (files : FileStore) (filepath : String)
    (audio_data : List Int) : Except String FileStore :=
  if fileExists files filepath then Except.error "File exists"
  else Except.ok (fsSet files filepath audio_data)

/-- `_write_audio_file` (`main.py` lines 189-196): dispatch on
`config.OUTPUT_FORMAT.lower() == "wav"`, anything else going to the FLAC
writer. -/
def writeAudioFile (output_format : String) (files : FileStore)
    (filepath : String) (audio_data : List Int) : Except String FileStore :=
  if output_format.toLower = "wav" then saveToWaveFile files filepath audio_data
  else saveToFlacFile files filepath audio_data

/-- Environment for one `save_recording` call: whether
`os.path.exists(self.network_path)` holds, and injected success/failure of
the I/O performed by each of the two possible `_write_audio_file` calls
(an encoder or device error surfaces as an exception there). -/
structure SaveEnv where
  network_path_exists : Bool
  network_write_ok : Bool
  backup_write_ok : Bool
deriving DecidableEq

/-- Observable outcome of one `save_recording` call: both directories'
contents afterwards, which write attempts were made, and whether an
exception escaped the call. -/
structure SaveResult where
  network_files : FileStore
  backup_files : FileStore
  primary_write_attempted : Bool
  fallback_write_attempted : Bool
  raised : Bool

/-- A `_write_audio_file` call with injected I/O failure: when the
environment marks the call as failing, the write raises before changing
the store; otherwise it behaves as `_write_audio_file`. -/
def attemptWrite (ok : Bool) (output_format : String) (files : FileStore)
    (filepath : String) (audio_data : List Int) : Except String FileStore :=
  if ok then writeAudioFile output_format files filepath audio_data
  else Except.error "write failed"

/-- The primary attempt of `save_recording` (`main.py` lines 170-178):
`os.path.exists(self.network_path)` is checked first and a missing
directory raises `FileNotFoundError` before any write; the directory is
never created here; otherwise `_write_audio_file` runs against the
network directory. -/
def tryPrimaryWrite (output_format : String) (env : SaveEnv)
    (network_files : FileStore) (filename : String) (audio_data : List Int) :
    Except String FileStore :=
  if env.network_path_exists then
    attemptWrite env.network_write_ok output_format network_files filename
      audio_data
  else Except.error "Network directory does not exist"

/-- `save_recording` (`main.py` lines 153-187): return immediately when the
buffer holds at most one frame; trim trailing silence; join the frames
into one flat sample sequence; try the network path, first checking that
the network directory exists (raising `FileNotFoundError` without writing
when it does not, and never creating it); on any exception fall back to a
single write at the backup path; a failure there is printed and swallowed,
so the call never raises. -/
def save_recording (output_format : String) (env : SaveEnv)
    (network_files backup_files : FileStore) (buffer : List (List Int))
    (silence_counter trailing_silence_frames : Nat) (filename : String) :
    SaveResult :=
  if buffer.length ≤ 1 then
    { network_files := network_files
      backup_files := backup_files
      primary_write_attempted := false
      fallback_write_attempted := false
      raised := false }
  else
    let buffer1 := trimBuffer buffer silence_counter trailing_silence_frames
    let audio_data := buffer1.flatten
    match tryPrimaryWrite output_format env network_files filename audio_data with
    | Except.ok nf =>
        { network_files := nf
          backup_files := backup_files
          primary_write_attempted := env.network_path_exists
          fallback_write_attempted := false
          raised := false }
    | Except.error _ =>
        match attemptWrite env.backup_write_ok output_format backup_files
            filename audio_data with
        | Except.ok bf =>
            { network_files := network_files
              backup_files := bf
              primary_write_attempted := env.network_path_exists
              fallback_write_attempted := true
              raised := false }
        | Except.error _ =>
            { network_files := network_files
              backup_files := backup_files
              primary_write_attempted := env.network_path_exists
              fallback_write_attempted := true
              raised := false }

/-- Outcome of one whole `record` run: the machine state after the final
interrupt handling, whether each of the three `finally` release actions
ran, and whether an exception escaped past the `except KeyboardInterrupt`
handler. -/
structure RunResult where
  final : RecState
  stream_stopped : Bool
  stream_closed : Bool
  audio_terminated : Bool
  exception_escaped : Bool

/-- The `try`/`except KeyboardInterrupt`/`finally` shape of `record`
(`main.py` lines 98-151): the events are the `(frame, verdict)` pairs
processed before the external interrupt is observed between iterations;
on interrupt, when recording with a non-empty buffer and
`speech_detected_in_recording`, `save_recording` is called on the buffer
at once; `interrupt_save_fails` injects a failure into that call, which
then escapes the handler; the `finally` block (`stream.stop_stream()`,
`stream.close()`, `audio.terminate()`) runs on every exit path. -/
def recordLoop (cfg : Config) (events : List (Nat × Bool))
    (interrupt_save_fails : Bool) : RunResult :=
  let s := run cfg events
  if s.recording = true ∧ s.buffer ≠ [] ∧
      s.speech_detected_in_recording = true then
    if interrupt_save_fails then
      { final := s
        stream_stopped := true
        stream_closed := true
        audio_terminated := true
        exception_escaped := true }
    else
      { final := { s with saved := s.saved ++ [s.buffer] }
        stream_stopped := true
        stream_closed := true
        audio_terminated := true
        exception_escaped := false }
  else
    { final := s
      stream_stopped := true
      stream_closed := true
      audio_terminated := true
      exception_escaped := false }

end AudioRec

namespace AudioRec

theorem stepSpeech_recording (cfg : Config) (s : RecState) (f : Nat)
    (h : s.recording = true) :
    stepSpeech cfg s f =
      { s with
        speech_detected_in_recording := true
        silence_counter := 0
        speech_frame_counter := s.speech_frame_counter + 1
        speech_pre_buffer := s.speech_pre_buffer ++ [f]
        buffer := s.buffer ++ [f] } := by
  simp [stepSpeech, h]

theorem stepSpeech_confirm (cfg : Config) (s : RecState) (f : Nat)
    (h : s.recording = false)
    (h2 : cfg.minimum_consecutive_speech_frames ≤ s.speech_frame_counter + 1) :
    stepSpeech cfg s f =
      { s with
        recording := true
        speech_detected_in_recording := true
        silence_counter := 0
        speech_frame_counter := s.speech_frame_counter + 1
        speech_pre_buffer := []
        buffer := (s.speech_pre_buffer ++ [f]) ++ [f] } := by
  simp [stepSpeech, h, h2]

theorem stepSpeech_arming (cfg : Config) (s : RecState) (f : Nat)
    (h : s.recording = false)
    (h2 : s.speech_frame_counter + 1 < cfg.minimum_consecutive_speech_frames) :
    stepSpeech cfg s f =
      { s with
        speech_detected_in_recording := true
        silence_counter := 0
        speech_frame_counter := s.speech_frame_counter + 1
        speech_pre_buffer := s.speech_pre_buffer ++ [f] } := by
  simp [stepSpeech, h, Nat.not_le.mpr h2]

theorem stepSilence_idle (cfg : Config) (s : RecState) (f : Nat)
    (h : s.recording = false) :
    stepSilence cfg s f =
      { s with speech_frame_counter := 0, speech_pre_buffer := [] } := by
  simp [stepSilence, h]

theorem stepSilence_continue (cfg : Config) (s : RecState) (f : Nat)
    (h : s.recording = true)
    (h2 : s.silence_counter + 1 < cfg.silence_threshold) :
    stepSilence cfg s f =
      { s with
        speech_frame_counter := 0
        silence_counter := s.silence_counter + 1
        buffer := s.buffer ++ [f] } := by
  simp [stepSilence, h, Nat.not_le.mpr h2]

theorem stepSilence_close (cfg : Config) (s : RecState) (f : Nat)
    (h : s.recording = true)
    (h2 : cfg.silence_threshold ≤ s.silence_counter + 1)
    (h3 : s.speech_detected_in_recording = true) :
    stepSilence cfg s f =
      { s with
        recording := false
        buffer := []
        silence_counter := 0
        speech_frame_counter := 0
        speech_detected_in_recording := false
        saved := s.saved ++ [s.buffer ++ [f]] } := by
  simp [stepSilence, h, h2, h3]

theorem stepSilence_close_no_speech (cfg : Config) (s : RecState) (f : Nat)
    (h : s.recording = true)
    (h2 : cfg.silence_threshold ≤ s.silence_counter + 1)
    (h3 : s.speech_detected_in_recording = false) :
    stepSilence cfg s f =
      { s with
        recording := false
        buffer := []
        silence_counter := 0
        speech_frame_counter := 0
        speech_detected_in_recording := false } := by
  simp [stepSilence, h, h2, h3]

theorem run_append (cfg : Config) (es : List (Nat × Bool)) (e : Nat × Bool) :
    run cfg (es ++ [e]) = step cfg (run cfg es) e.1 e.2 := by
  simp [run, List.foldl_append]

end AudioRec

namespace AudioRec

theorem runStat_append (vs : List Bool) (b : Bool) :
    runStat (vs ++ [b]) = runStep (runStat vs) b := by
  simp [runStat, List.foldl_append]

theorem curRun_append_true (vs : List Bool) :
    curRun (vs ++ [true]) = curRun vs + 1 := by
  simp [curRun, runStat_append, runStep]

theorem curRun_append_false (vs : List Bool) :
    curRun (vs ++ [false]) = 0 := by
  simp [curRun, runStat_append, runStep]

theorem maxRun_append_true (vs : List Bool) :
    maxRun (vs ++ [true]) = max (maxRun vs) (curRun vs + 1) := by
  simp [maxRun, curRun, runStat_append, runStep]

theorem maxRun_append_false (vs : List Bool) :
    maxRun (vs ++ [false]) = maxRun vs := by
  simp [maxRun, runStat_append, runStep]

theorem foldl_runStep_le (vs : List Bool) :
    ∀ c m : Nat, c ≤ m →
      (vs.foldl runStep (c, m)).1 ≤ (vs.foldl runStep (c, m)).2 := by
  induction vs with
  | nil => intro c m h; simpa using h
  | cons b vs ih =>
      intro c m h
      simp only [List.foldl_cons]
      cases b with
      | true =>
          simpa [runStep] using ih (c + 1) (max m (c + 1)) (le_max_right _ _)
      | false =>
          simpa [runStep] using ih 0 m (Nat.zero_le m)

theorem curRun_le_maxRun (vs : List Bool) : curRun vs ≤ maxRun vs :=
  foldl_runStep_le vs 0 0 (Nat.le_refl 0)

theorem maxRun_le_append (vs : List Bool) (b : Bool) :
    maxRun vs ≤ maxRun (vs ++ [b]) := by
  cases b with
  | true => rw [maxRun_append_true]; exact le_max_left _ _
  | false => rw [maxRun_append_false]

theorem step_true (cfg : Config) (s : RecState) (f : Nat) :
    step cfg s f true = stepSpeech cfg s f := rfl

theorem step_false (cfg : Config) (s : RecState) (f : Nat) :
    step cfg s f false = stepSilence cfg s f := rfl

theorem run_maxRun_inv (cfg : Config) (events : List (Nat × Bool)) :
    (run cfg events).speech_frame_counter = curRun (events.map Prod.snd) ∧
    ((run cfg events).recording = true →
      cfg.minimum_consecutive_speech_frames ≤ maxRun (events.map Prod.snd)) ∧
    ((run cfg events).saved ≠ [] →
      cfg.minimum_consecutive_speech_frames ≤ maxRun (events.map Prod.snd)) := by
  induction events using List.reverseRecOn with
  | nil =>
      refine ⟨rfl, ?_, ?_⟩
      · intro h; simp [run, initState] at h
      · intro h; simp [run, initState] at h
  | append_singleton es e ih =>
      obtain ⟨ih1, ih2, ih3⟩ := ih
      obtain ⟨f, b⟩ := e
      rw [run_append]
      simp only [List.map_append, List.map_cons, List.map_nil]
      cases b with
      | true =>
          rw [step_true]
          cases hr : (run cfg es).recording with
          | true =>
              rw [stepSpeech_recording cfg _ f hr]
              refine ⟨?_, ?_, ?_⟩
              · simp [curRun_append_true, ih1]
              · intro _
                exact le_trans (ih2 hr) (maxRun_le_append _ true)
              · intro hs
                simp only at hs
                exact le_trans (ih3 hs) (maxRun_le_append _ true)
          | false =>
              by_cases hc : cfg.minimum_consecutive_speech_frames ≤
                  (run cfg es).speech_frame_counter + 1
              · rw [stepSpeech_confirm cfg _ f hr hc]
                refine ⟨?_, ?_, ?_⟩
                · simp [curRun_append_true, ih1]
                · intro _
                  rw [maxRun_append_true]
                  rw [ih1] at hc
                  exact le_trans hc (le_max_right _ _)
                · intro hs
                  simp only at hs
                  exact le_trans (ih3 hs) (maxRun_le_append _ true)
              · rw [stepSpeech_arming cfg _ f hr (Nat.lt_of_not_le hc)]
                refine ⟨?_, ?_, ?_⟩
                · simp [curRun_append_true, ih1]
                · intro h
                  simp [hr] at h
                · intro hs
                  simp only at hs
                  exact le_trans (ih3 hs) (maxRun_le_append _ true)
      | false =>
          rw [step_false]
          cases hr : (run cfg es).recording with
          | false =>
              rw [stepSilence_idle cfg _ f hr]
              refine ⟨by simp [curRun_append_false], ?_, ?_⟩
              · intro h
                simp [hr] at h
              · intro hs
                simp only at hs
                exact le_trans (ih3 hs) (maxRun_le_append _ false)
          | true =>
              by_cases hc : cfg.silence_threshold ≤
                  (run cfg es).silence_counter + 1
              · cases hd : (run cfg es).speech_detected_in_recording with
                | true =>
                    rw [stepSilence_close cfg _ f hr hc hd]
                    refine ⟨by simp [curRun_append_false], ?_, ?_⟩
                    · intro h; exact absurd h (by simp)
                    · intro _
                      rw [maxRun_append_false]
                      exact ih2 hr
                | false =>
                    rw [stepSilence_close_no_speech cfg _ f hr hc hd]
                    refine ⟨by simp [curRun_append_false], ?_, ?_⟩
                    · intro h; exact absurd h (by simp)
                    · intro hs
                      simp only at hs
                      exact le_trans (ih3 hs) (maxRun_le_append _ false)
              · rw [stepSilence_continue cfg _ f hr (Nat.lt_of_not_le hc)]
                refine ⟨by simp [curRun_append_false], ?_, ?_⟩
                · intro _
                  rw [maxRun_append_false]
                  exact ih2 hr
                · intro hs
                  simp only at hs
                  exact le_trans (ih3 hs) (maxRun_le_append _ false)

theorem run_recording_detected (cfg : Config) (events : List (Nat × Bool)) :
    (run cfg events).recording = true →
    (run cfg events).speech_detected_in_recording = true := by
  induction events using List.reverseRecOn with
  | nil => intro h; simp [run, initState] at h
  | append_singleton es e ih =>
      rw [run_append]
      obtain ⟨f, b⟩ := e
      cases b with
      | true =>
          rw [step_true]
          cases hr : (run cfg es).recording with
          | true => rw [stepSpeech_recording cfg _ f hr]; intro _; rfl
          | false =>
              by_cases hc : cfg.minimum_consecutive_speech_frames ≤
                  (run cfg es).speech_frame_counter + 1
              · rw [stepSpeech_confirm cfg _ f hr hc]; intro _; rfl
              · rw [stepSpeech_arming cfg _ f hr (Nat.lt_of_not_le hc)]
                intro h
                simp [hr] at h
      | false =>
          rw [step_false]
          cases hr : (run cfg es).recording with
          | false =>
              rw [stepSilence_idle cfg _ f hr]
              intro h
              simp [hr] at h
          | true =>
              by_cases hc : cfg.silence_threshold ≤
                  (run cfg es).silence_counter + 1
              · cases hd : (run cfg es).speech_detected_in_recording with
                | true =>
                    rw [stepSilence_close cfg _ f hr hc hd]
                    intro h; exact absurd h (by simp)
                | false =>
                    rw [stepSilence_close_no_speech cfg _ f hr hc hd]
                    intro h; exact absurd h (by simp)
              · rw [stepSilence_continue cfg _ f hr (Nat.lt_of_not_le hc)]
                intro h
                simp only at h ⊢
                exact ih h

end AudioRec

namespace AudioRec

theorem leadingFalse_le_length (l : List Bool) : leadingFalse l ≤ l.length := by
  induction l with
  | nil => exact Nat.le_refl 0
  | cons b l ih =>
      cases b with
      | true => simp [leadingFalse]
      | false => simpa [leadingFalse] using Nat.succ_le_succ ih

theorem leadingFalse_drop :
    ∀ (n : Nat) (l : List Bool), n ≤ leadingFalse l →
      leadingFalse (l.drop n) = leadingFalse l - n := by
  intro n
  induction n with
  | zero => intro l _; simp
  | succ n ih =>
      intro l h
      cases l with
      | nil => simp [leadingFalse] at h
      | cons b l =>
          cases b with
          | true => simp [leadingFalse] at h
          | false =>
              have h' : n ≤ leadingFalse l := by
                simp [leadingFalse] at h
                omega
              rw [List.drop_succ_cons, ih l h']
              simp [leadingFalse]

theorem trailingSilence_le_length (l : List Bool) :
    trailingSilence l ≤ l.length := by
  simpa [trailingSilence] using leadingFalse_le_length l.reverse

theorem trim_noop {α : Type} (l : List α) (t k : Nat) (h : t ≤ k) :
    trimBuffer l t k = l := by
  simp [trimBuffer, Nat.not_lt.mpr h]

theorem trimBuffer_eq_rdrop {α : Type} (l : List α) (t k : Nat) (h : k < t) :
    trimBuffer l t k = List.rdrop l (t - k) := by
  simp [trimBuffer, List.rdrop, h]

theorem trailingSilence_trim_le (buf : List Bool) (k : Nat) :
    trailingSilence (trimBuffer buf (trailingSilence buf) k) ≤ k := by
  by_cases hk : k < trailingSilence buf
  · rw [trimBuffer_eq_rdrop buf (trailingSilence buf) k hk]
    rw [trailingSilence, List.rdrop_eq_reverse_drop_reverse, List.reverse_reverse]
    rw [leadingFalse_drop (trailingSilence buf - k) buf.reverse
      (Nat.sub_le _ _)]
    have : trailingSilence buf = leadingFalse buf.reverse := rfl
    omega
  · rw [trim_noop buf (trailingSilence buf) k (Nat.not_lt.mp hk)]
    exact Nat.not_lt.mp hk

theorem writeAudioFile_ok (fmt : String) (files : FileStore) (p : String)
    (d : List Int) (h : fileExists files p = false) :
    writeAudioFile fmt files p d = Except.ok (fsSet files p d) := by
  by_cases hf : fmt.toLower = "wav" <;>
    simp [writeAudioFile, hf, saveToWaveFile, saveToFlacFile, h]

end AudioRec

namespace AudioRec

/-- C1 (counterexample): with the configured values (minimum speech frames
7, silence threshold 100 frames), feeding 7 consecutive speech verdicts
then 100 consecutive silence verdicts produces exactly one segment of 108
frames, not the claimed 107: the confirming seventh frame enters the
buffer twice, once inside the promoted pre-buffer and once through the
recording append of the same iteration. -/
theorem scenario1_segment_has_108_frames :
    (run defaultConfig scenario1).saved.map List.length ≠ [107] ∧
    (run defaultConfig scenario1).saved.map List.length = [108] := by
  exact ⟨by decide, by decide⟩

/-- C1 (amended): once `RECORDING` is entered, the finished segment's
frame list begins with the frames that were in the pre-buffer at the
moment of onset confirmation in original order, with the confirming frame
appearing a second time immediately after them, followed by all
subsequently read frames up to and including the terminating silence run,
each exactly once; in the 7-speech-then-100-silence scenario exactly one
segment of 108 frames is produced before trimming. -/
theorem segment_content_with_duplicate (cfg : Config) (s : RecState) (f : Nat) :
    (s.recording = false →
      cfg.minimum_consecutive_speech_frames ≤ s.speech_frame_counter + 1 →
      (step cfg s f true).buffer = (s.speech_pre_buffer ++ [f]) ++ [f]) ∧
    (s.recording = true → (step cfg s f true).buffer = s.buffer ++ [f]) ∧
    (s.recording = true → s.silence_counter + 1 < cfg.silence_threshold →
      (step cfg s f false).buffer = s.buffer ++ [f]) ∧
    (s.recording = true → cfg.silence_threshold ≤ s.silence_counter + 1 →
      s.speech_detected_in_recording = true →
      (step cfg s f false).saved = s.saved ++ [s.buffer ++ [f]]) ∧
    (run defaultConfig scenario1).saved.map List.length = [108] := by
  refine ⟨?_, ?_, ?_, ?_, by decide⟩
  · intro h1 h2
    rw [step_true, stepSpeech_confirm cfg s f h1 h2]
  · intro h
    rw [step_true, stepSpeech_recording cfg s f h]
  · intro h1 h2
    rw [step_false, stepSilence_continue cfg s f h1 h2]
  · intro h1 h2 h3
    rw [step_false, stepSilence_close cfg s f h1 h2 h3]

/-- Witness for `segment_content_with_duplicate`: each hypothesis is
discharged at a concrete reachable state. -/
theorem segment_content_with_duplicate_witness :
    ((run defaultConfig (speechFrames 1 6)).recording = false ∧
      defaultConfig.minimum_consecutive_speech_frames ≤
        (run defaultConfig (speechFrames 1 6)).speech_frame_counter + 1 ∧
      (step defaultConfig (run defaultConfig (speechFrames 1 6)) 7 true).buffer =
        ((run defaultConfig (speechFrames 1 6)).speech_pre_buffer ++ [7]) ++ [7]) ∧
    ((run defaultConfig (speechFrames 1 7)).recording = true ∧
      (step defaultConfig (run defaultConfig (speechFrames 1 7)) 8 true).buffer =
        (run defaultConfig (speechFrames 1 7)).buffer ++ [8]) ∧
    ((run shortConfig (speechFrames 1 7)).recording = true ∧
      shortConfig.silence_threshold ≤
        (run shortConfig (speechFrames 1 7)).silence_counter + 1 ∧
      (run shortConfig (speechFrames 1 7)).speech_detected_in_recording = true ∧
      (step shortConfig (run shortConfig (speechFrames 1 7)) 8 false).saved =
        (run shortConfig (speechFrames 1 7)).saved ++
          [(run shortConfig (speechFrames 1 7)).buffer ++ [8]]) :=
  ⟨⟨by decide, by decide,
      (segment_content_with_duplicate defaultConfig
        (run defaultConfig (speechFrames 1 6)) 7).1 (by decide) (by decide)⟩,
    ⟨by decide,
      (segment_content_with_duplicate defaultConfig
        (run defaultConfig (speechFrames 1 7)) 8).2.1 (by decide)⟩,
    ⟨by decide, by decide, by decide,
      (segment_content_with_duplicate shortConfig
        (run shortConfig (speechFrames 1 7)) 8).2.2.2.1 (by decide) (by decide)
        (by decide)⟩⟩

/-- C2 (counterexample): feed 8 speech verdicts then 100 silence verdicts;
the silence threshold closes the segment (one segment of 109 frames is
handed over, `recording` is reset), yet the pre-buffer afterwards is
`[8]`, not empty: the eighth speech frame was appended to the pre-buffer
while recording and the close path never clears the pre-buffer. -/
theorem close_leaves_pre_buffer_nonempty :
    (run defaultConfig scenario2).recording = false ∧
    (run defaultConfig scenario2).saved.map List.length = [109] ∧
    (run defaultConfig scenario2).speech_pre_buffer = [8] := by
  exact ⟨by decide, by decide, by decide⟩

/-- C2 (amended): when the consecutive-silence counter reaches the silence
threshold during recording, the segment (with the closing frame) is handed
to persistence if `speech_detected_in_recording` is true, and the machine
resets `recording`, `buffer`, `silence_counter`,
`speech_frame_counter` and `speech_detected_in_recording`; the pre-buffer,
however, is left exactly as it was, and it may be non-empty because every
speech frame processed during recording was also appended to it. -/
theorem close_resets_except_pre_buffer (cfg : Config) (s : RecState) (f : Nat)
    (h1 : s.recording = true)
    (h2 : cfg.silence_threshold ≤ s.silence_counter + 1) :
    (step cfg s f false).recording = false ∧
    (step cfg s f false).buffer = [] ∧
    (step cfg s f false).silence_counter = 0 ∧
    (step cfg s f false).speech_frame_counter = 0 ∧
    (step cfg s f false).speech_detected_in_recording = false ∧
    (step cfg s f false).speech_pre_buffer = s.speech_pre_buffer ∧
    (s.speech_detected_in_recording = true →
      (step cfg s f false).saved = s.saved ++ [s.buffer ++ [f]]) := by
  cases hd : s.speech_detected_in_recording with
  | true =>
      rw [step_false, stepSilence_close cfg s f h1 h2 hd]
      exact ⟨rfl, rfl, rfl, rfl, rfl, rfl, fun _ => rfl⟩
  | false =>
      rw [step_false, stepSilence_close_no_speech cfg s f h1 h2 hd]
      exact ⟨rfl, rfl, rfl, rfl, rfl, rfl, fun h => nomatch h⟩

/-- Witness for `close_resets_except_pre_buffer` at a concrete closing
state. -/
theorem close_resets_except_pre_buffer_witness :
    (run shortConfig (speechFrames 1 7)).recording = true ∧
    shortConfig.silence_threshold ≤
      (run shortConfig (speechFrames 1 7)).silence_counter + 1 ∧
    (step shortConfig (run shortConfig (speechFrames 1 7)) 8 false).buffer = [] :=
  ⟨by decide, by decide,
    (close_resets_except_pre_buffer shortConfig
      (run shortConfig (speechFrames 1 7)) 8 (by decide) (by decide)).2.1⟩

/-- C5 (confirmed): a verdict sequence whose longest run of consecutive
speech verdicts is below `MINIMUM_CONSECUTIVE_SPEECH_FRAMES` never enters
recording and never hands any segment to persistence. -/
theorem no_segment_without_min_speech_run (cfg : Config)
    (events : List (Nat × Bool))
    (h : maxRun (events.map Prod.snd) <
      cfg.minimum_consecutive_speech_frames) :
    (run cfg events).recording = false ∧ (run cfg events).saved = [] := by
  obtain ⟨-, h2, h3⟩ := run_maxRun_inv cfg events
  constructor
  · cases hrec : (run cfg events).recording with
    | false => rfl
    | true => exact absurd (h2 hrec) (Nat.not_le.mpr h)
  · by_contra hs
    exact absurd (h3 hs) (Nat.not_le.mpr h)

/-- Witness for `no_segment_without_min_speech_run`: two speech runs of 6
interrupted by one silence frame, the spec's own near-miss scenario. -/
theorem no_segment_without_min_speech_run_witness :
    maxRun ((speechFrames 1 6 ++ silenceFrames 7 1 ++
        speechFrames 8 6).map Prod.snd) <
      defaultConfig.minimum_consecutive_speech_frames ∧
    (run defaultConfig (speechFrames 1 6 ++ silenceFrames 7 1 ++
        speechFrames 8 6)).recording = false ∧
    (run defaultConfig (speechFrames 1 6 ++ silenceFrames 7 1 ++
        speechFrames 8 6)).saved = [] :=
  ⟨by decide,
    (no_segment_without_min_speech_run defaultConfig _ (by decide)).1,
    (no_segment_without_min_speech_run defaultConfig _ (by decide)).2⟩

/-- C6 (confirmed): a non-speech verdict processed while not recording
zeroes the consecutive-speech counter and leaves the pre-buffer empty. -/
theorem silence_while_idle_resets (cfg : Config) (s : RecState) (f : Nat)
    (h : s.recording = false) :
    (step cfg s f false).speech_frame_counter = 0 ∧
    (step cfg s f false).speech_pre_buffer = [] := by
  rw [step_false, stepSilence_idle cfg s f h]
  exact ⟨rfl, rfl⟩

/-- Witness for `silence_while_idle_resets`: after three speech frames in
ARMING, a silence frame empties the pre-buffer and zeroes the counter. -/
theorem silence_while_idle_resets_witness :
    (run defaultConfig (speechFrames 1 3)).recording = false ∧
    (step defaultConfig (run defaultConfig (speechFrames 1 3)) 4
        false).speech_frame_counter = 0 ∧
    (step defaultConfig (run defaultConfig (speechFrames 1 3)) 4
        false).speech_pre_buffer = [] :=
  ⟨by decide,
    (silence_while_idle_resets defaultConfig
      (run defaultConfig (speechFrames 1 3)) 4 (by decide)).1,
    (silence_while_idle_resets defaultConfig
      (run defaultConfig (speechFrames 1 3)) 4 (by decide)).2⟩

/-- C7 (confirmed): for a finished segment whose trailing silence count is
`sc` (as `silence_counter` is at segment close), one application of the
trim leaves at most the configured `trailing_silence_frames` trailing
silence frames, so a second application of the trim removes nothing. -/
theorem trim_idempotent (buf : List Bool) (sc k : Nat)
    (h : trailingSilence buf = sc) :
    trailingSilence (trimBuffer buf sc k) ≤ k ∧
    trimBuffer (trimBuffer buf sc k) (trailingSilence (trimBuffer buf sc k)) k =
      trimBuffer buf sc k := by
  subst h
  have hle := trailingSilence_trim_le buf k
  exact ⟨hle, trim_noop _ _ _ hle⟩

/-- Witness for `trim_idempotent`: a two-speech-frame segment followed by
a ten-frame silence run, trimmed to keep three trailing silence frames. -/
theorem trim_idempotent_witness :
    trailingSilence [true, true, false, false, false, false, false, false,
      false, false, false, false] = 10 ∧
    trailingSilence (trimBuffer [true, true, false, false, false, false,
      false, false, false, false, false, false] 10 3) ≤ 3 ∧
    trimBuffer (trimBuffer [true, true, false, false, false, false, false,
        false, false, false, false, false] 10 3)
      (trailingSilence (trimBuffer [true, true, false, false, false, false,
        false, false, false, false, false, false] 10 3)) 3 =
      trimBuffer [true, true, false, false, false, false, false, false,
        false, false, false, false] 10 3 :=
  ⟨by decide,
    (trim_idempotent [true, true, false, false, false, false, false, false,
      false, false, false, false] 10 3 (by decide)).1,
    (trim_idempotent [true, true, false, false, false, false, false, false,
      false, false, false, false] 10 3 (by decide)).2⟩

/-- C9 (confirmed): in every state reachable by the loop,
`speech_detected_in_recording` is true whenever `recording` is true;
consequently the defensive check at the silence-threshold close never
suppresses the hand-over to persistence. -/
theorem recording_implies_had_speech (cfg : Config)
    (events : List (Nat × Bool)) :
    ((run cfg events).recording = true →
      (run cfg events).speech_detected_in_recording = true) ∧
    (∀ f : Nat, (run cfg events).recording = true →
      cfg.silence_threshold ≤ (run cfg events).silence_counter + 1 →
      (step cfg (run cfg events) f false).saved =
        (run cfg events).saved ++ [(run cfg events).buffer ++ [f]]) := by
  refine ⟨run_recording_detected cfg events, ?_⟩
  intro f h1 h2
  rw [step_false,
    stepSilence_close cfg _ f h1 h2 (run_recording_detected cfg events h1)]

/-- Witness for `recording_implies_had_speech`: after 7 confirmed speech
frames under the one-frame silence threshold, the close persists the
buffer. -/
theorem recording_implies_had_speech_witness :
    (run shortConfig (speechFrames 1 7)).recording = true ∧
    shortConfig.silence_threshold ≤
      (run shortConfig (speechFrames 1 7)).silence_counter + 1 ∧
    (run shortConfig (speechFrames 1 7)).speech_detected_in_recording = true ∧
    (step shortConfig (run shortConfig (speechFrames 1 7)) 8 false).saved =
      (run shortConfig (speechFrames 1 7)).saved ++
        [(run shortConfig (speechFrames 1 7)).buffer ++ [8]] :=
  ⟨by decide, by decide,
    (recording_implies_had_speech shortConfig (speechFrames 1 7)).1
      (by decide),
    (recording_implies_had_speech shortConfig (speechFrames 1 7)).2 8
      (by decide) (by decide)⟩

/-- C10 (confirmed): while recording, every speech frame is also appended
to the pre-buffer; the close path leaves the pre-buffer untouched; the
pre-buffer is cleared only by a non-speech frame processed while not
recording; hence in the 8-speech, 100-silence, 7-speech scenario the new
segment's buffer after re-confirmation starts with frame 8 of the
previous session. -/
theorem pre_buffer_persists_across_segments (cfg : Config) (s : RecState)
    (f : Nat) :
    (s.recording = true →
      (step cfg s f true).speech_pre_buffer = s.speech_pre_buffer ++ [f]) ∧
    (s.recording = true →
      (step cfg s f false).speech_pre_buffer = s.speech_pre_buffer) ∧
    (s.recording = false →
      (step cfg s f false).speech_pre_buffer = []) ∧
    ((run defaultConfig scenario3).buffer =
        [8, 109, 110, 111, 112, 113, 114, 115, 115] ∧
      (run defaultConfig scenario3).recording = true) := by
  refine ⟨?_, ?_, ?_, by decide, by decide⟩
  · intro h
    rw [step_true, stepSpeech_recording cfg s f h]
  · intro h
    by_cases hc : cfg.silence_threshold ≤ s.silence_counter + 1
    · cases hd : s.speech_detected_in_recording with
      | true => rw [step_false, stepSilence_close cfg s f h hc hd]
      | false => rw [step_false, stepSilence_close_no_speech cfg s f h hc hd]
    · rw [step_false, stepSilence_continue cfg s f h (Nat.lt_of_not_le hc)]
  · intro h
    rw [step_false, stepSilence_idle cfg s f h]

/-- Witness for `pre_buffer_persists_across_segments` at concrete
recording and idle states. -/
theorem pre_buffer_persists_across_segments_witness :
    ((run defaultConfig (speechFrames 1 7)).recording = true ∧
      (step defaultConfig (run defaultConfig (speechFrames 1 7)) 8
          true).speech_pre_buffer =
        (run defaultConfig (speechFrames 1 7)).speech_pre_buffer ++ [8] ∧
      (step defaultConfig (run defaultConfig (speechFrames 1 7)) 8
          false).speech_pre_buffer =
        (run defaultConfig (speechFrames 1 7)).speech_pre_buffer) ∧
    (initState.recording = false ∧
      (step defaultConfig initState 1 false).speech_pre_buffer = []) :=
  ⟨⟨by decide,
      (pre_buffer_persists_across_segments defaultConfig
        (run defaultConfig (speechFrames 1 7)) 8).1 (by decide),
      (pre_buffer_persists_across_segments defaultConfig
        (run defaultConfig (speechFrames 1 7)) 8).2.1 (by decide)⟩,
    ⟨by decide,
      (pre_buffer_persists_across_segments defaultConfig initState 1).2.2.1
        (by decide)⟩⟩

end AudioRec

namespace AudioRec

theorem tryPrimaryWrite_no_dir (fmt : String) (env : SaveEnv)
    (nf : FileStore) (filename : String) (d : List Int)
    (h : env.network_path_exists = false) :
    tryPrimaryWrite fmt env nf filename d =
      Except.error "Network directory does not exist" := by
  simp [tryPrimaryWrite, h]

theorem attemptWrite_fresh (fmt : String) (files : FileStore) (p : String)
    (d : List Int) (h : fileExists files p = false) :
    attemptWrite true fmt files p d = Except.ok (fsSet files p d) := by
  simp [attemptWrite, writeAudioFile_ok fmt files p d h]

theorem tryPrimaryWrite_fresh (fmt : String) (env : SaveEnv)
    (nf : FileStore) (filename : String) (d : List Int)
    (h1 : env.network_path_exists = true) (h2 : env.network_write_ok = true)
    (h3 : fileExists nf filename = false) :
    tryPrimaryWrite fmt env nf filename d =
      Except.ok (fsSet nf filename d) := by
  rw [tryPrimaryWrite, h1, h2]
  simp [attemptWrite_fresh fmt nf filename d h3]

theorem tryPrimaryWrite_io_fail (fmt : String) (env : SaveEnv)
    (nf : FileStore) (filename : String) (d : List Int)
    (h1 : env.network_path_exists = true) (h2 : env.network_write_ok = false) :
    tryPrimaryWrite fmt env nf filename d = Except.error "write failed" := by
  rw [tryPrimaryWrite, h1, h2]
  rfl

theorem save_recording_primary_ok (fmt : String) (env : SaveEnv)
    (nf bf : FileStore) (buffer : List (List Int)) (sc tr : Nat)
    (filename : String) (nf2 : FileStore) (hlen : 1 < buffer.length)
    (hok : tryPrimaryWrite fmt env nf filename
      (trimBuffer buffer sc tr).flatten = Except.ok nf2) :
    save_recording fmt env nf bf buffer sc tr filename =
      { network_files := nf2
        backup_files := bf
        primary_write_attempted := env.network_path_exists
        fallback_write_attempted := false
        raised := false } := by
  simp [save_recording, Nat.not_le.mpr hlen, hok]

theorem save_recording_fallback_ok (fmt : String) (env : SaveEnv)
    (nf bf : FileStore) (buffer : List (List Int)) (sc tr : Nat)
    (filename : String) (e : String) (bf2 : FileStore)
    (hlen : 1 < buffer.length)
    (herr : tryPrimaryWrite fmt env nf filename
      (trimBuffer buffer sc tr).flatten = Except.error e)
    (hb : attemptWrite env.backup_write_ok fmt bf filename
      (trimBuffer buffer sc tr).flatten = Except.ok bf2) :
    save_recording fmt env nf bf buffer sc tr filename =
      { network_files := nf
        backup_files := bf2
        primary_write_attempted := env.network_path_exists
        fallback_write_attempted := true
        raised := false } := by
  simp [save_recording, Nat.not_le.mpr hlen, herr, hb]

theorem save_recording_fallback_err (fmt : String) (env : SaveEnv)
    (nf bf : FileStore) (buffer : List (List Int)) (sc tr : Nat)
    (filename : String) (e e2 : String) (hlen : 1 < buffer.length)
    (herr : tryPrimaryWrite fmt env nf filename
      (trimBuffer buffer sc tr).flatten = Except.error e)
    (hb : attemptWrite env.backup_write_ok fmt bf filename
      (trimBuffer buffer sc tr).flatten = Except.error e2) :
    save_recording fmt env nf bf buffer sc tr filename =
      { network_files := nf
        backup_files := bf
        primary_write_attempted := env.network_path_exists
        fallback_write_attempted := true
        raised := false } := by
  simp [save_recording, Nat.not_le.mpr hlen, herr, hb]

end AudioRec

namespace AudioRec

/-- C3 (counterexample): with the wav output format, writing to a path at
which a file already exists succeeds and replaces that file, because
`wave.open(filepath, 'wb')` truncates an existing file instead of
failing; only the FLAC writer opens with mode x. -/
theorem wav_overwrites_existing_file :
    fileExists [("recording_20240101_000000.wav", [0])]
      "recording_20240101_000000.wav" = true ∧
    saveToWaveFile [("recording_20240101_000000.wav", [0])]
      "recording_20240101_000000.wav" [1] =
      Except.ok [("recording_20240101_000000.wav", [1])] := by
  exact ⟨rfl, rfl⟩

/-- C3 (amended): writing a segment to a target path at which a file
already exists fails for the flac format (`mode='x'` raises), but for the
wav format it succeeds and overwrites the existing file (`'wb'`
truncates). -/
theorem flac_fails_wav_overwrites (files : FileStore) (p : String)
    (d : List Int) (h : fileExists files p = true) :
    saveToFlacFile files p d = Except.error "File exists" ∧
    saveToWaveFile files p d = Except.ok (fsSet files p d) := by
  exact ⟨by simp [saveToFlacFile, h], rfl⟩

/-- Witness for `flac_fails_wav_overwrites` on a one-file store. -/
theorem flac_fails_wav_overwrites_witness :
    fileExists [("r.flac", [0])] "r.flac" = true ∧
    saveToFlacFile [("r.flac", [0])] "r.flac" [1] =
      Except.error "File exists" ∧
    saveToWaveFile [("r.flac", [0])] "r.flac" [1] =
      Except.ok (fsSet [("r.flac", [0])] "r.flac" [1]) :=
  ⟨rfl, (flac_fails_wav_overwrites [("r.flac", [0])] "r.flac" [1] rfl).1,
    (flac_fails_wav_overwrites [("r.flac", [0])] "r.flac" [1] rfl).2⟩

/-- C4 (confirmed): for every persisted segment, `save_recording` attempts
the primary write only after the primary-directory existence check passes
(the directory is never created); a missing primary directory or any
primary write error triggers exactly one fallback write, so a missing
primary directory puts the file at the backup path and nowhere else; if
the fallback write also fails, both stores are unchanged, and in every
case no exception escapes `save_recording`. -/
theorem save_recording_fallback_policy (fmt : String) (env : SaveEnv)
    (nf bf : FileStore) (buffer : List (List Int)) (sc tr : Nat)
    (filename : String) (r : SaveResult)
    (hr : r = save_recording fmt env nf bf buffer sc tr filename)
    (hlen : 1 < buffer.length) :
    r.raised = false ∧
    (r.primary_write_attempted = true → env.network_path_exists = true) ∧
    (env.network_path_exists = false →
      r.fallback_write_attempted = true ∧ r.network_files = nf) ∧
    (env.network_path_exists = false → env.backup_write_ok = true →
      fileExists bf filename = false →
      r.backup_files = fsSet bf filename (trimBuffer buffer sc tr).flatten ∧
        r.network_files = nf) ∧
    (env.network_path_exists = false → env.backup_write_ok = false →
      r.network_files = nf ∧ r.backup_files = bf) ∧
    (env.network_path_exists = true → env.network_write_ok = true →
      fileExists nf filename = false →
      r.fallback_write_attempted = false ∧ r.backup_files = bf ∧
        r.network_files = fsSet nf filename
          (trimBuffer buffer sc tr).flatten) ∧
    (env.network_path_exists = true → env.network_write_ok = false →
      r.primary_write_attempted = true ∧ r.fallback_write_attempted = true ∧
        r.network_files = nf) ∧
    (env.network_path_exists = true → env.network_write_ok = false →
      env.backup_write_ok = true → fileExists bf filename = false →
      r.backup_files = fsSet bf filename (trimBuffer buffer sc tr).flatten ∧
        r.network_files = nf) := by
  subst hr
  refine ⟨?_, ?_, ?_, ?_, ?_, ?_, ?_, ?_⟩
  · cases hp : tryPrimaryWrite fmt env nf filename
        (trimBuffer buffer sc tr).flatten with
    | ok nf2 =>
        rw [save_recording_primary_ok fmt env nf bf buffer sc tr filename nf2
          hlen hp]
    | error e =>
        cases hb : attemptWrite env.backup_write_ok fmt bf filename
            (trimBuffer buffer sc tr).flatten with
        | ok bf2 =>
            rw [save_recording_fallback_ok fmt env nf bf buffer sc tr filename
              e bf2 hlen hp hb]
        | error e2 =>
            rw [save_recording_fallback_err fmt env nf bf buffer sc tr
              filename e e2 hlen hp hb]
  · cases hp : tryPrimaryWrite fmt env nf filename
        (trimBuffer buffer sc tr).flatten with
    | ok nf2 =>
        rw [save_recording_primary_ok fmt env nf bf buffer sc tr filename nf2
          hlen hp]
        exact fun h => h
    | error e =>
        cases hb : attemptWrite env.backup_write_ok fmt bf filename
            (trimBuffer buffer sc tr).flatten with
        | ok bf2 =>
            rw [save_recording_fallback_ok fmt env nf bf buffer sc tr filename
              e bf2 hlen hp hb]
            exact fun h => h
        | error e2 =>
            rw [save_recording_fallback_err fmt env nf bf buffer sc tr
              filename e e2 hlen hp hb]
            exact fun h => h
  · intro hnpe
    have hp := tryPrimaryWrite_no_dir fmt env nf filename
      (trimBuffer buffer sc tr).flatten hnpe
    cases hb : attemptWrite env.backup_write_ok fmt bf filename
        (trimBuffer buffer sc tr).flatten with
    | ok bf2 =>
        rw [save_recording_fallback_ok fmt env nf bf buffer sc tr filename
          _ bf2 hlen hp hb]
        exact ⟨rfl, rfl⟩
    | error e2 =>
        rw [save_recording_fallback_err fmt env nf bf buffer sc tr filename
          _ e2 hlen hp hb]
        exact ⟨rfl, rfl⟩
  · intro hnpe hbok hex
    have hp := tryPrimaryWrite_no_dir fmt env nf filename
      (trimBuffer buffer sc tr).flatten hnpe
    have hb : attemptWrite env.backup_write_ok fmt bf filename
        (trimBuffer buffer sc tr).flatten =
        Except.ok (fsSet bf filename (trimBuffer buffer sc tr).flatten) := by
      rw [hbok]
      exact attemptWrite_fresh fmt bf filename _ hex
    rw [save_recording_fallback_ok fmt env nf bf buffer sc tr filename
      _ _ hlen hp hb]
    exact ⟨rfl, rfl⟩
  · intro hnpe hbno
    have hp := tryPrimaryWrite_no_dir fmt env nf filename
      (trimBuffer buffer sc tr).flatten hnpe
    have hb : attemptWrite env.backup_write_ok fmt bf filename
        (trimBuffer buffer sc tr).flatten = Except.error "write failed" := by
      rw [hbno]
      rfl
    rw [save_recording_fallback_err fmt env nf bf buffer sc tr filename
      _ _ hlen hp hb]
    exact ⟨rfl, rfl⟩
  · intro hnpe hnok hex
    have hp := tryPrimaryWrite_fresh fmt env nf filename
      (trimBuffer buffer sc tr).flatten hnpe hnok hex
    rw [save_recording_primary_ok fmt env nf bf buffer sc tr filename
      _ hlen hp]
    exact ⟨rfl, rfl, rfl⟩
  · intro hnpe hnwf
    have hp := tryPrimaryWrite_io_fail fmt env nf filename
      (trimBuffer buffer sc tr).flatten hnpe hnwf
    cases hb : attemptWrite env.backup_write_ok fmt bf filename
        (trimBuffer buffer sc tr).flatten with
    | ok bf2 =>
        rw [save_recording_fallback_ok fmt env nf bf buffer sc tr filename
          _ bf2 hlen hp hb]
        exact ⟨hnpe, rfl, rfl⟩
    | error e2 =>
        rw [save_recording_fallback_err fmt env nf bf buffer sc tr filename
          _ e2 hlen hp hb]
        exact ⟨hnpe, rfl, rfl⟩
  · intro hnpe hnwf hbok hex
    have hp := tryPrimaryWrite_io_fail fmt env nf filename
      (trimBuffer buffer sc tr).flatten hnpe hnwf
    have hb : attemptWrite env.backup_write_ok fmt bf filename
        (trimBuffer buffer sc tr).flatten =
        Except.ok (fsSet bf filename (trimBuffer buffer sc tr).flatten) := by
      rw [hbok]
      exact attemptWrite_fresh fmt bf filename _ hex
    rw [save_recording_fallback_ok fmt env nf bf buffer sc tr filename
      _ _ hlen hp hb]
    exact ⟨rfl, rfl⟩

/-- Witness for `save_recording_fallback_policy`: a three-frame segment,
first with a missing primary directory and a healthy backup directory,
then with the primary directory present but the primary write failing. -/
theorem save_recording_fallback_policy_witness :
    (1 : Nat) < ([[1], [2], [3]] : List (List Int)).length ∧
    ((⟨false, false, true⟩ : SaveEnv).network_path_exists = false) ∧
    (save_recording "flac" ⟨false, false, true⟩ [("x", [5])] []
        [[1], [2], [3]] 0 3 "r").backup_files =
      fsSet [] "r" (trimBuffer ([[1], [2], [3]] : List (List Int)) 0 3).flatten ∧
    (save_recording "flac" ⟨false, false, true⟩ [("x", [5])] []
        [[1], [2], [3]] 0 3 "r").network_files = [("x", [5])] ∧
    (save_recording "flac" ⟨false, false, true⟩ [("x", [5])] []
        [[1], [2], [3]] 0 3 "r").raised = false ∧
    ((⟨true, false, true⟩ : SaveEnv).network_path_exists = true) ∧
    ((⟨true, false, true⟩ : SaveEnv).network_write_ok = false) ∧
    (save_recording "flac" ⟨true, false, true⟩ [("x", [5])] []
        [[1], [2], [3]] 0 3 "r").fallback_write_attempted = true ∧
    (save_recording "flac" ⟨true, false, true⟩ [("x", [5])] []
        [[1], [2], [3]] 0 3 "r").backup_files =
      fsSet [] "r" (trimBuffer ([[1], [2], [3]] : List (List Int)) 0 3).flatten :=
  ⟨by decide, rfl,
    ((save_recording_fallback_policy "flac" ⟨false, false, true⟩ [("x", [5])]
        [] [[1], [2], [3]] 0 3 "r" _ rfl (by decide)).2.2.2.1 rfl rfl
      rfl).1,
    ((save_recording_fallback_policy "flac" ⟨false, false, true⟩ [("x", [5])]
        [] [[1], [2], [3]] 0 3 "r" _ rfl (by decide)).2.2.2.1 rfl rfl
      rfl).2,
    (save_recording_fallback_policy "flac" ⟨false, false, true⟩ [("x", [5])]
      [] [[1], [2], [3]] 0 3 "r" _ rfl (by decide)).1,
    rfl, rfl,
    ((save_recording_fallback_policy "flac" ⟨true, false, true⟩ [("x", [5])]
        [] [[1], [2], [3]] 0 3 "r" _ rfl (by decide)).2.2.2.2.2.2.1 rfl
      rfl).2.1,
    ((save_recording_fallback_policy "flac" ⟨true, false, true⟩ [("x", [5])]
        [] [[1], [2], [3]] 0 3 "r" _ rfl (by decide)).2.2.2.2.2.2.2 rfl rfl
      rfl rfl).1⟩

/-- C8 (confirmed): on an external interrupt observed after the processed
events, if the machine is recording with a non-empty buffer and
`speech_detected_in_recording` is true, the in-progress buffer is handed
to persistence at once, regardless of the silence counter; and the
`finally` release actions (`stream.stop_stream()`, `stream.close()`,
`audio.terminate()`) run on every exit path, including the one where the
final `save_recording` fails and its exception escapes. -/
theorem interrupt_finalize_and_release (cfg : Config)
    (events : List (Nat × Bool)) (interrupt_save_fails : Bool) :
    (recordLoop cfg events interrupt_save_fails).stream_stopped = true ∧
    (recordLoop cfg events interrupt_save_fails).stream_closed = true ∧
    (recordLoop cfg events interrupt_save_fails).audio_terminated = true ∧
    ((run cfg events).recording = true → (run cfg events).buffer ≠ [] →
      (run cfg events).speech_detected_in_recording = true →
      interrupt_save_fails = false →
      (recordLoop cfg events interrupt_save_fails).final.saved =
        (run cfg events).saved ++ [(run cfg events).buffer]) := by
  refine ⟨?_, ?_, ?_, ?_⟩
  · simp only [recordLoop]
    split
    · split <;> rfl
    · rfl
  · simp only [recordLoop]
    split
    · split <;> rfl
    · rfl
  · simp only [recordLoop]
    split
    · split <;> rfl
    · rfl
  · intro h1 h2 h3 h4
    subst h4
    simp only [recordLoop]
    rw [if_pos ⟨h1, h2, h3⟩]
    rfl

/-- Witness for `interrupt_finalize_and_release`: interrupt right after
the seventh confirmed speech frame, with the final save succeeding. -/
theorem interrupt_finalize_and_release_witness :
    (run defaultConfig (speechFrames 1 7)).recording = true ∧
    (run defaultConfig (speechFrames 1 7)).buffer ≠ [] ∧
    (run defaultConfig (speechFrames 1 7)).speech_detected_in_recording =
      true ∧
    (recordLoop defaultConfig (speechFrames 1 7) false).final.saved =
      (run defaultConfig (speechFrames 1 7)).saved ++
        [(run defaultConfig (speechFrames 1 7)).buffer] :=
  ⟨by decide, by decide, by decide,
    (interrupt_finalize_and_release defaultConfig (speechFrames 1 7)
      false).2.2.2 (by decide) (by decide) (by decide) rfl⟩

end AudioRec
